import Mathlib

/-! Shallow embedding of `src/Magnum/Vk/RenderPass.cpp` (Magnum's Vulkan
render-pass description builder) and proofs about it.

Modelling conventions:
* Machine integers (`UnsignedInt`, `VkFlags`, enums) are modelled as `Nat`;
  no arithmetic in the embedded code can overflow 32/64 bits on the values
  the structures hold, and none of the operations performs wrapping
  arithmetic on them.
* A C pointer paired with a count (an array view) is modelled as an
  `Option (List _)` (the pointed-to array, `none` = null pointer) together
  with the count field kept verbatim.  Reading element `i` of a view models
  `p[i]`; an out-of-bounds read (undefined behaviour in the C++) yields
  `default`.
* Pointers *into the flattened output block* are modelled as byte offsets
  from the block start (`Option Nat`, `none` = null).
* `pNext` extension-chain pointers are opaque addresses, modelled as `Nat`
  with `0` = null.
* Struct sizes are the 64-bit sizes, matching the `static_assert`
  alignment checks in `RenderPassCreateInfo::vkRenderPassCreateInfo()`.
-/

/-! Constants from the Vulkan headers -/

def VK_STRUCTURE_TYPE_ATTACHMENT_DESCRIPTION_2 : Nat := 1000109000
def VK_STRUCTURE_TYPE_ATTACHMENT_REFERENCE_2 : Nat := 1000109001
def VK_STRUCTURE_TYPE_SUBPASS_DESCRIPTION_2 : Nat := 1000109002
def VK_STRUCTURE_TYPE_SUBPASS_DEPENDENCY_2 : Nat := 1000109003
def VK_STRUCTURE_TYPE_RENDER_PASS_CREATE_INFO_2 : Nat := 1000109004
def VK_STRUCTURE_TYPE_RENDER_PASS_CREATE_INFO : Nat := 38
def VK_ATTACHMENT_UNUSED : Nat := 4294967295
def VK_IMAGE_LAYOUT_UNDEFINED : Nat := 0
def VK_PIPELINE_BIND_POINT_GRAPHICS : Nat := 0

/-- Models `sizeof(VkAttachmentReference)`: two 32-bit fields. -/
def sizeof_VkAttachmentReference : Nat := 8
/-- Models `sizeof(VkAttachmentDescription)`: nine 32-bit fields. -/
def sizeof_VkAttachmentDescription : Nat := 36
/-- Models `sizeof(VkSubpassDependency)`: seven 32-bit fields. -/
def sizeof_VkSubpassDependency : Nat := 28
/-- Models `sizeof(VkSubpassDescription)` on 64-bit: 4+4+4+(pad)4+8+4+(pad)4+8+8+8+4+(pad)4+8. -/
def sizeof_VkSubpassDescription : Nat := 72
/-- Models `sizeof(VkRenderPassCreateInfo)` on 64-bit. -/
def sizeof_VkRenderPassCreateInfo : Nat := 64

/-! Legacy ("version 1") wire structures -/

/-- Models `VkAttachmentReference`. -/
structure VkAttachmentReference where
  attachment : Nat
  layout : Nat
deriving DecidableEq, Inhabited, Repr

/-- Models `VkAttachmentDescription`. -/
structure VkAttachmentDescription where
  flags : Nat
  format : Nat
  samples : Nat
  loadOp : Nat
  storeOp : Nat
  stencilLoadOp : Nat
  stencilStoreOp : Nat
  initialLayout : Nat
  finalLayout : Nat
deriving DecidableEq, Inhabited, Repr

/-- Models `VkSubpassDependency`. -/
structure VkSubpassDependency where
  srcSubpass : Nat
  dstSubpass : Nat
  srcStageMask : Nat
  dstStageMask : Nat
  srcAccessMask : Nat
  dstAccessMask : Nat
  dependencyFlags : Nat
deriving DecidableEq, Inhabited, Repr

/-- Models `VkSubpassDescription` in its *input* role (a caller-supplied legacy
structure, whose pointer fields are views of caller-owned arrays). -/
structure VkSubpassDescription where
  flags : Nat
  pipelineBindPoint : Nat
  inputAttachmentCount : Nat
  pInputAttachments : Option (List VkAttachmentReference)
  colorAttachmentCount : Nat
  pColorAttachments : Option (List VkAttachmentReference)
  pResolveAttachments : Option (List VkAttachmentReference)
  pDepthStencilAttachment : Option VkAttachmentReference
  preserveAttachmentCount : Nat
  pPreserveAttachments : Option (List Nat)
deriving DecidableEq, Inhabited, Repr

/-! Canonical ("version 2") wire structures -/

/-- Models `VkAttachmentReference2`. -/
structure VkAttachmentReference2 where
  sType : Nat
  pNext : Nat
  attachment : Nat
  layout : Nat
  aspectMask : Nat
deriving DecidableEq, Inhabited, Repr

/-- Models `VkAttachmentDescription2`. -/
structure VkAttachmentDescription2 where
  sType : Nat
  pNext : Nat
  flags : Nat
  format : Nat
  samples : Nat
  loadOp : Nat
  storeOp : Nat
  stencilLoadOp : Nat
  stencilStoreOp : Nat
  initialLayout : Nat
  finalLayout : Nat
deriving DecidableEq, Inhabited, Repr

/-- Models `VkSubpassDependency2`. -/
structure VkSubpassDependency2 where
  sType : Nat
  pNext : Nat
  srcSubpass : Nat
  dstSubpass : Nat
  srcStageMask : Nat
  dstStageMask : Nat
  srcAccessMask : Nat
  dstAccessMask : Nat
  dependencyFlags : Nat
  viewOffset : Int
deriving DecidableEq, Inhabited, Repr

/-- Models `VkSubpassDescription2`.  The attachment-reference views are
`Option (List _)` plus the verbatim count fields, the depth/stencil pointer
is an `Option` of a single structure. -/
structure VkSubpassDescription2 where
  sType : Nat
  pNext : Nat
  flags : Nat
  pipelineBindPoint : Nat
  viewMask : Nat
  inputAttachmentCount : Nat
  pInputAttachments : Option (List VkAttachmentReference2)
  colorAttachmentCount : Nat
  pColorAttachments : Option (List VkAttachmentReference2)
  pResolveAttachments : Option (List VkAttachmentReference2)
  pDepthStencilAttachment : Option VkAttachmentReference2
  preserveAttachmentCount : Nat
  pPreserveAttachments : Option (List Nat)
deriving DecidableEq, Inhabited, Repr

/-- Models `VkRenderPassCreateInfo2`. -/
structure VkRenderPassCreateInfo2 where
  sType : Nat
  pNext : Nat
  flags : Nat
  attachmentCount : Nat
  pAttachments : Option (List VkAttachmentDescription2)
  subpassCount : Nat
  pSubpasses : Option (List VkSubpassDescription2)
  dependencyCount : Nat
  pDependencies : Option (List VkSubpassDependency2)
  correlatedViewMaskCount : Nat
  pCorrelatedViewMasks : Option (List Nat)
deriving DecidableEq, Inhabited, Repr

/-- Reads the first `count` elements of an array view `p` (models the
`{pointer, count}` `ArrayView` constructions in the source; an
out-of-bounds read is undefined behaviour in C++ and yields `default`). -/
def readView {α : Type} [Inhabited α] (p : Option (List α)) (count : Nat) : List α :=
  (List.range count).map fun i => (p.getD []).getD i default

/-! Value wrappers and their converters -/

/-- Models `AttachmentDescription`: wraps one `VkAttachmentDescription2`. -/
structure AttachmentDescription where
  description : VkAttachmentDescription2
deriving DecidableEq, Inhabited, Repr

/-- Models `AttachmentDescription(const VkAttachmentDescription&)`: promotes a
legacy structure to the canonical form (type tag set, `pNext` null). -/
def AttachmentDescription.fromVk1 (description : VkAttachmentDescription) :
    AttachmentDescription :=
  ⟨{ sType := VK_STRUCTURE_TYPE_ATTACHMENT_DESCRIPTION_2
     pNext := 0
     flags := description.flags
     format := description.format
     samples := description.samples
     loadOp := description.loadOp
     storeOp := description.storeOp
     stencilLoadOp := description.stencilLoadOp
     stencilStoreOp := description.stencilStoreOp
     initialLayout := description.initialLayout
     finalLayout := description.finalLayout }⟩

/-- Models `AttachmentDescription(const VkAttachmentDescription2&)`: verbatim copy. -/
def AttachmentDescription.fromVk2 (description : VkAttachmentDescription2) :
    AttachmentDescription :=
  ⟨description⟩

/-- The file-local helper `vkAttachmentDescription()` (anonymous namespace):
projects a canonical structure down to the legacy layout.
`AttachmentDescription::vkAttachmentDescription()` delegates to it on the
stored structure. -/
def vkAttachmentDescription (description : VkAttachmentDescription2) :
    VkAttachmentDescription :=
  { flags := description.flags
    format := description.format
    samples := description.samples
    loadOp := description.loadOp
    storeOp := description.storeOp
    stencilLoadOp := description.stencilLoadOp
    stencilStoreOp := description.stencilStoreOp
    initialLayout := description.initialLayout
    finalLayout := description.finalLayout }

/-- Models `AttachmentReference`: wraps one `VkAttachmentReference2`. -/
structure AttachmentReference where
  reference : VkAttachmentReference2
deriving DecidableEq, Repr

/-- Models `AttachmentReference()`: the default/unused reference (sentinel
attachment index, undefined layout).  Also the value a default-constructed
`SubpassDescription::State` member holds. -/
def AttachmentReference.unused : AttachmentReference :=
  ⟨{ sType := VK_STRUCTURE_TYPE_ATTACHMENT_REFERENCE_2
     pNext := 0
     attachment := VK_ATTACHMENT_UNUSED
     layout := VK_IMAGE_LAYOUT_UNDEFINED
     aspectMask := 0 }⟩

instance : Inhabited AttachmentReference := ⟨AttachmentReference.unused⟩

/-- Models `AttachmentReference(UnsignedInt, ImageLayout)`. -/
def AttachmentReference.make (attachment : Nat) (layout : Nat) : AttachmentReference :=
  ⟨{ sType := VK_STRUCTURE_TYPE_ATTACHMENT_REFERENCE_2
     pNext := 0
     attachment := attachment
     layout := layout
     aspectMask := 0 }⟩

/-- Models `AttachmentReference(const VkAttachmentReference&)`: promotion of the
legacy structure (aspect mask defaults to 0). -/
def AttachmentReference.fromVk1 (reference : VkAttachmentReference) :
    AttachmentReference :=
  ⟨{ sType := VK_STRUCTURE_TYPE_ATTACHMENT_REFERENCE_2
     pNext := 0
     attachment := reference.attachment
     layout := reference.layout
     aspectMask := 0 }⟩

/-- Models `AttachmentReference(const VkAttachmentReference2&)`: verbatim copy. -/
def AttachmentReference.fromVk2 (reference : VkAttachmentReference2) :
    AttachmentReference :=
  ⟨reference⟩

/-- The file-local helper `vkAttachmentReference()`: projects a canonical
reference down to the legacy layout.
`AttachmentReference::vkAttachmentReference()` delegates to it. -/
def vkAttachmentReference (reference : VkAttachmentReference2) :
    VkAttachmentReference :=
  { attachment := reference.attachment
    layout := reference.layout }

/-- Models `SubpassDependency`: wraps one `VkSubpassDependency2`. -/
structure SubpassDependency where
  dependency : VkSubpassDependency2
deriving DecidableEq, Inhabited, Repr

/-- Models `SubpassDependency(const VkSubpassDependency&)`: promotion of the
legacy structure (view offset defaults to 0). -/
def SubpassDependency.fromVk1 (dependency : VkSubpassDependency) :
    SubpassDependency :=
  ⟨{ sType := VK_STRUCTURE_TYPE_SUBPASS_DEPENDENCY_2
     pNext := 0
     srcSubpass := dependency.srcSubpass
     dstSubpass := dependency.dstSubpass
     srcStageMask := dependency.srcStageMask
     dstStageMask := dependency.dstStageMask
     srcAccessMask := dependency.srcAccessMask
     dstAccessMask := dependency.dstAccessMask
     dependencyFlags := dependency.dependencyFlags
     viewOffset := 0 }⟩

/-- Models `SubpassDependency(const VkSubpassDependency2&)`: verbatim copy. -/
def SubpassDependency.fromVk2 (dependency : VkSubpassDependency2) :
    SubpassDependency :=
  ⟨dependency⟩

/-- The file-local helper `vkSubpassDependency()`: projects a canonical
dependency down to the legacy layout (dropping the view offset).
`SubpassDependency::vkSubpassDependency()` delegates to it. -/
def vkSubpassDependency (dependency : VkSubpassDependency2) :
    VkSubpassDependency :=
  { srcSubpass := dependency.srcSubpass
    dstSubpass := dependency.dstSubpass
    srcStageMask := dependency.srcStageMask
    dstStageMask := dependency.dstStageMask
    srcAccessMask := dependency.srcAccessMask
    dstAccessMask := dependency.dstAccessMask
    dependencyFlags := dependency.dependencyFlags }

/-! SubpassDescription -/

/-- Contents of the `inputAttachments` `ArrayTuple` in
`SubpassDescription::State`: the wrapper array and the parallel
`VkAttachmentReference2` array. -/
structure InputAttachmentsStorage where
  wrappers : List AttachmentReference
  vkAttachments2 : List VkAttachmentReference2
deriving DecidableEq, Inhabited, Repr

/-- Contents of the `colorAttachments` `ArrayTuple` in
`SubpassDescription::State`: six parallel arrays (wrappers, canonical and
legacy wire structures, for colors and resolves). -/
structure ColorAttachmentsStorage where
  wrappers : List AttachmentReference
  resolveWrappers : List AttachmentReference
  vkAttachments2 : List VkAttachmentReference2
  vkResolveAttachments2 : List VkAttachmentReference2
  vkAttachments : List VkAttachmentReference
  vkResolveAttachments : List VkAttachmentReference
deriving DecidableEq, Inhabited, Repr

/-- Models `SubpassDescription::State`.  A default-constructed state holds empty
arrays and a default (unused) depth/stencil attachment reference. -/
structure SubpassDescriptionState where
  inputAttachments : InputAttachmentsStorage
  colorAttachments : ColorAttachmentsStorage
  depthStencilAttachment : AttachmentReference
  preserveAttachments : List Nat
deriving DecidableEq, Inhabited, Repr

/-- Models `SubpassDescription`: the `_description` wire structure plus the
optionally-allocated owned `_state` (`Containers::Pointer`, `none` = null). -/
structure SubpassDescription where
  description : VkSubpassDescription2
  state : Option SubpassDescriptionState
deriving DecidableEq, Inhabited, Repr

/-- Models `SubpassDescription(Flags)`: type tag, flags and a graphics bind point;
everything else zero/null, no state allocated. -/
def SubpassDescription.make (flags : Nat) : SubpassDescription :=
  { description := {
      sType := VK_STRUCTURE_TYPE_SUBPASS_DESCRIPTION_2
      pNext := 0
      flags := flags
      pipelineBindPoint := VK_PIPELINE_BIND_POINT_GRAPHICS
      viewMask := 0
      inputAttachmentCount := 0
      pInputAttachments := none
      colorAttachmentCount := 0
      pColorAttachments := none
      pResolveAttachments := none
      pDepthStencilAttachment := none
      preserveAttachmentCount := 0
      pPreserveAttachments := none }
    state := none }

/-- Models `SubpassDescription::setInputAttachmentsInternal<T>`: replaces the
input-attachment storage with freshly built wrapper and
`VkAttachmentReference2` arrays and re-points the description at them.
`conv` is the `AttachmentReference{attachments[i]}` conversion
constructor for the template parameter `T`. -/
def SubpassDescription.setInputAttachmentsInternal {α : Type}
    (conv : α → AttachmentReference) (s : SubpassDescription)
    (attachments : List α) : SubpassDescription :=
  let st := s.state.getD default
  let wrappers := attachments.map conv
  let vkAttachments2 := wrappers.map AttachmentReference.reference
  { description := { s.description with
      inputAttachmentCount := attachments.length
      pInputAttachments := some vkAttachments2 }
    state := some { st with inputAttachments := ⟨wrappers, vkAttachments2⟩ } }

/-- Models `SubpassDescription::setInputAttachments` (public overload,
`T = AttachmentReference`, whose conversion constructor is a copy). -/
def SubpassDescription.setInputAttachments (s : SubpassDescription)
    (attachments : List AttachmentReference) : SubpassDescription :=
  s.setInputAttachmentsInternal id attachments

/-- Models `SubpassDescription::setColorAttachmentsInternal<T>`: checks the
`CORRADE_ASSERT` precondition (resolve either empty or of the color
sequence's length; `none` = assertion fired), then replaces the
color-attachment storage with six freshly built parallel arrays and
re-points the description.  When the resolve sequence is non-empty the
C++ fills its arrays reading `resolveAttachments[i]` for
`i < attachments.size()`, which under the just-checked precondition
is exactly `resolveAttachments.map conv`. -/
def SubpassDescription.setColorAttachmentsInternal {α : Type}
    (conv : α → AttachmentReference) (s : SubpassDescription)
    (attachments resolveAttachments : List α) : Option SubpassDescription :=
  let st := s.state.getD default
  if resolveAttachments.length ≠ 0 ∧
      resolveAttachments.length ≠ attachments.length then none
  else
    let wrappers := attachments.map conv
    let resolveWrappers := resolveAttachments.map conv
    let vkAttachments2 := wrappers.map AttachmentReference.reference
    let vkResolveAttachments2 := resolveWrappers.map AttachmentReference.reference
    let vkAttachments := vkAttachments2.map vkAttachmentReference
    let vkResolveAttachments := vkResolveAttachments2.map vkAttachmentReference
    some { description := { s.description with
             colorAttachmentCount := attachments.length
             pColorAttachments := some vkAttachments2
             pResolveAttachments :=
               (if resolveAttachments.isEmpty then none
                else some vkResolveAttachments2) }
           state := some { st with colorAttachments :=
             ⟨wrappers, resolveWrappers, vkAttachments2, vkResolveAttachments2,
              vkAttachments, vkResolveAttachments⟩ } }

/-- Models `SubpassDescription::setColorAttachments` (public overload,
`T = AttachmentReference`). -/
def SubpassDescription.setColorAttachments (s : SubpassDescription)
    (attachments resolveAttachments : List AttachmentReference) :
    Option SubpassDescription :=
  s.setColorAttachmentsInternal id attachments resolveAttachments

/-- Models `SubpassDescription::setDepthStencilAttachment`: stores the wrapper in
the state and points the description at its wire structure. -/
def SubpassDescription.setDepthStencilAttachment (s : SubpassDescription)
    (attachment : AttachmentReference) : SubpassDescription :=
  let st := s.state.getD default
  { description := { s.description with
      pDepthStencilAttachment := some attachment.reference }
    state := some { st with depthStencilAttachment := attachment } }

/-- Models `SubpassDescription::setPreserveAttachments`: stores the index array in
the state and points the description at it. -/
def SubpassDescription.setPreserveAttachments (s : SubpassDescription)
    (attachments : List Nat) : SubpassDescription :=
  let st := s.state.getD default
  { description := { s.description with
      preserveAttachmentCount := attachments.length
      pPreserveAttachments := some attachments }
    state := some { st with preserveAttachments := attachments } }

/-- Models `SubpassDescription(const VkSubpassDescription&)` (lines 175–194):
copies flags, bind point and the preserve-attachment count/pointer
verbatim into the canonical structure, then converts the input, color,
resolve and depth/stencil attachment references into owned "version 2"
storage via the internal setters (`T = VkAttachmentReference`).  Returns
`none` if the `setColorAttachmentsInternal` assertion fired (it never
does on this path, as proven below). -/
def SubpassDescription.fromVk1 (description : VkSubpassDescription) :
    Option SubpassDescription :=
  let s0 : SubpassDescription := {
    description := {
      sType := VK_STRUCTURE_TYPE_SUBPASS_DESCRIPTION_2
      pNext := 0
      flags := description.flags
      pipelineBindPoint := description.pipelineBindPoint
      viewMask := 0
      inputAttachmentCount := 0
      pInputAttachments := none
      colorAttachmentCount := 0
      pColorAttachments := none
      pResolveAttachments := none
      pDepthStencilAttachment := none
      preserveAttachmentCount := description.preserveAttachmentCount
      pPreserveAttachments := description.pPreserveAttachments }
    state := some default }
  let s1 := s0.setInputAttachmentsInternal AttachmentReference.fromVk1
    (readView description.pInputAttachments description.inputAttachmentCount)
  match s1.setColorAttachmentsInternal AttachmentReference.fromVk1
      (readView description.pColorAttachments description.colorAttachmentCount)
      (readView description.pResolveAttachments
        (if description.pResolveAttachments.isSome
         then description.colorAttachmentCount else 0)) with
  | none => none
  | some s2 =>
    some (match description.pDepthStencilAttachment with
      | none => s2
      | some r => s2.setDepthStencilAttachment (AttachmentReference.fromVk1 r))

/-- Models `SubpassDescription(SubpassDescription&&)` (lines 198–216): the new
object takes over the description and the state; the moved-from source
keeps its value fields but has `pNext`, every attachment count and every
attachment pointer cleared, and its state pointer nulled by the
`Containers::Pointer` move.  Returns (new object, moved-from source). -/
def SubpassDescription.moveConstruct (other : SubpassDescription) :
    SubpassDescription × SubpassDescription :=
  ({ description := other.description, state := other.state },
   { description := { other.description with
       pNext := 0
       inputAttachmentCount := 0
       pInputAttachments := none
       colorAttachmentCount := 0
       pColorAttachments := none
       pResolveAttachments := none
       pDepthStencilAttachment := none
       preserveAttachmentCount := 0
       pPreserveAttachments := none }
     state := none })

/-- Models `SubpassDescription::operator=(SubpassDescription&&)` (lines 218–223):
swaps `_description` and `_state` of the two objects.  Returns
(assigned-to object, assigned-from object) after the swap. -/
def SubpassDescription.moveAssign (self other : SubpassDescription) :
    SubpassDescription × SubpassDescription :=
  ({ description := other.description, state := other.state },
   { description := self.description, state := self.state })

/-! RenderPassCreateInfo -/

/-- Contents of the `attachments` `ArrayTuple` in
`RenderPassCreateInfo::State`. -/
structure AttachmentsStorage where
  wrappers : List AttachmentDescription
  vkAttachments2 : List VkAttachmentDescription2
deriving DecidableEq, Inhabited, Repr

/-- Contents of the `dependencies` `ArrayTuple` in
`RenderPassCreateInfo::State`. -/
structure DependenciesStorage where
  wrappers : List SubpassDependency
  vkDependencies2 : List VkSubpassDependency2
deriving DecidableEq, Inhabited, Repr

/-- Models `RenderPassCreateInfo::State`. -/
structure RenderPassCreateInfoState where
  attachments : AttachmentsStorage
  subpasses : List SubpassDescription
  vkSubpasses2 : List VkSubpassDescription2
  dependencies : DependenciesStorage
deriving DecidableEq, Inhabited, Repr

/-- Models `RenderPassCreateInfo`: the `_info` wire structure plus the
optionally-allocated owned `_state`. -/
structure RenderPassCreateInfo where
  info : VkRenderPassCreateInfo2
  state : Option RenderPassCreateInfoState
deriving DecidableEq, Inhabited, Repr

/-- Models `RenderPassCreateInfo(Flags)`: type tag and flags, everything else
zero/null, no state allocated. -/
def RenderPassCreateInfo.make (flags : Nat) : RenderPassCreateInfo :=
  { info := {
      sType := VK_STRUCTURE_TYPE_RENDER_PASS_CREATE_INFO_2
      pNext := 0
      flags := flags
      attachmentCount := 0
      pAttachments := none
      subpassCount := 0
      pSubpasses := none
      dependencyCount := 0
      pDependencies := none
      correlatedViewMaskCount := 0
      pCorrelatedViewMasks := none }
    state := none }

/-- Models `RenderPassCreateInfo::setAttachmentsInternal<T>`: replaces the
attachment storage with freshly built wrapper and
`VkAttachmentDescription2` arrays and re-points the info structure. -/
def RenderPassCreateInfo.setAttachmentsInternal {α : Type}
    (conv : α → AttachmentDescription) (c : RenderPassCreateInfo)
    (attachments : List α) : RenderPassCreateInfo :=
  let st := c.state.getD default
  let wrappers := attachments.map conv
  let vkAttachments2 := wrappers.map AttachmentDescription.description
  { info := { c.info with
      attachmentCount := attachments.length
      pAttachments := some vkAttachments2 }
    state := some { st with attachments := ⟨wrappers, vkAttachments2⟩ } }

/-- Models `RenderPassCreateInfo::setAttachments` (public overload). -/
def RenderPassCreateInfo.setAttachments (c : RenderPassCreateInfo)
    (attachments : List AttachmentDescription) : RenderPassCreateInfo :=
  c.setAttachmentsInternal id attachments

/-- Models `RenderPassCreateInfo::addSubpass` (lines 601–617): appends the moved
subpass to the owned growable array, appends its `VkSubpassDescription2`
conversion to the parallel array, and reconnects the info structure's
subpass count and pointer to the (possibly reallocated) array. -/
def RenderPassCreateInfo.addSubpass (c : RenderPassCreateInfo)
    (subpass : SubpassDescription) : RenderPassCreateInfo :=
  let st := c.state.getD default
  let subpasses := st.subpasses ++ [subpass]
  let vkSubpasses2 := st.vkSubpasses2 ++ [subpass.description]
  { info := { c.info with
      subpassCount := vkSubpasses2.length
      pSubpasses := some vkSubpasses2 }
    state := some { st with subpasses := subpasses, vkSubpasses2 := vkSubpasses2 } }

/-- Models `RenderPassCreateInfo::setDependenciesInternal<T>`: replaces the
dependency storage and re-points the info structure. -/
def RenderPassCreateInfo.setDependenciesInternal {α : Type}
    (conv : α → SubpassDependency) (c : RenderPassCreateInfo)
    (dependencies : List α) : RenderPassCreateInfo :=
  let st := c.state.getD default
  let wrappers := dependencies.map conv
  let vkDependencies2 := wrappers.map SubpassDependency.dependency
  { info := { c.info with
      dependencyCount := dependencies.length
      pDependencies := some vkDependencies2 }
    state := some { st with dependencies := ⟨wrappers, vkDependencies2⟩ } }

/-- Models `RenderPassCreateInfo::setDependencies` (public overload). -/
def RenderPassCreateInfo.setDependencies (c : RenderPassCreateInfo)
    (dependencies : List SubpassDependency) : RenderPassCreateInfo :=
  c.setDependenciesInternal id dependencies

/-- Models `RenderPassCreateInfo(RenderPassCreateInfo&&)` (lines 542–560): the new
object takes over `_info` and `_state`; the moved-from source keeps its
value fields but has `pNext`, every count and every pointer cleared, and
its state pointer nulled.  Returns (new object, moved-from source). -/
def RenderPassCreateInfo.moveConstruct (other : RenderPassCreateInfo) :
    RenderPassCreateInfo × RenderPassCreateInfo :=
  ({ info := other.info, state := other.state },
   { info := { other.info with
       pNext := 0
       attachmentCount := 0
       pAttachments := none
       subpassCount := 0
       pSubpasses := none
       dependencyCount := 0
       pDependencies := none
       correlatedViewMaskCount := 0
       pCorrelatedViewMasks := none }
     state := none })

/-- Models `RenderPassCreateInfo::operator=(RenderPassCreateInfo&&)` (lines
564–569): swaps `_info` and `_state`.  Returns (assigned-to object,
assigned-from object) after the swap. -/
def RenderPassCreateInfo.moveAssign (self other : RenderPassCreateInfo) :
    RenderPassCreateInfo × RenderPassCreateInfo :=
  ({ info := other.info, state := other.state },
   { info := self.info, state := self.state })

/-! The legacy flattening -/

/-- Models `vkSubpassDescriptionExtrasSize()` (lines 385–389): byte size of the
legacy attachment-reference records a subpass needs in its trailer. -/
def vkSubpassDescriptionExtrasSize (description : VkSubpassDescription2) : Nat :=
  sizeof_VkAttachmentReference * (description.inputAttachmentCount +
    description.colorAttachmentCount *
      (if description.pResolveAttachments.isSome then 2 else 1) +
    (if description.pDepthStencilAttachment.isSome then 1 else 0))

/-- A `VkSubpassDescription` in its *output* role: produced by the
flattening, its attachment-reference pointers are byte offsets into the
flattened block (`none` = null) and its preserve-attachment pointer is
copied through verbatim. -/
structure VkSubpassDescription1 where
  flags : Nat
  pipelineBindPoint : Nat
  inputAttachmentCount : Nat
  pInputAttachments : Option Nat
  colorAttachmentCount : Nat
  pColorAttachments : Option Nat
  pResolveAttachments : Option Nat
  pDepthStencilAttachment : Option Nat
  preserveAttachmentCount : Nat
  pPreserveAttachments : Option (List Nat)
deriving DecidableEq, Inhabited, Repr

/-- Models `vkSubpassDescriptionExtrasInto()` (lines 391–432): converts one
subpass to the legacy layout.  `base` is the byte offset of the output
position `out` within the flattened block.  Returns the legacy header
(with reference pointers as byte offsets), the number of bytes written,
and the legacy attachment-reference records written at `base` (input,
then color, then resolve-if-present, then depth/stencil-if-present). -/
def vkSubpassDescriptionExtrasInto (description : VkSubpassDescription2)
    (base : Nat) : (VkSubpassDescription1 × Nat) × List VkAttachmentReference :=
  let inputRefs := (readView description.pInputAttachments
    description.inputAttachmentCount).map vkAttachmentReference
  let colorRefs := (readView description.pColorAttachments
    description.colorAttachmentCount).map vkAttachmentReference
  let resolveRefs := match description.pResolveAttachments with
    | none => []
    | some l => ((List.range description.colorAttachmentCount).map
        fun i => vkAttachmentReference (l.getD i default))
  let depthRefs := match description.pDepthStencilAttachment with
    | none => []
    | some r => [vkAttachmentReference r]
  let records := inputRefs ++ colorRefs ++ resolveRefs ++ depthRefs
  let description1 : VkSubpassDescription1 := {
    flags := description.flags
    pipelineBindPoint := description.pipelineBindPoint
    inputAttachmentCount := description.inputAttachmentCount
    pInputAttachments :=
      (if description.inputAttachmentCount ≠ 0 then some base else none)
    colorAttachmentCount := description.colorAttachmentCount
    pColorAttachments :=
      (if description.colorAttachmentCount ≠ 0
       then some (base + sizeof_VkAttachmentReference *
         description.inputAttachmentCount)
       else none)
    pResolveAttachments :=
      (if description.pResolveAttachments.isSome
       then some (base + sizeof_VkAttachmentReference *
         (description.inputAttachmentCount + description.colorAttachmentCount))
       else none)
    pDepthStencilAttachment :=
      (if description.pDepthStencilAttachment.isSome
       then some (base + sizeof_VkAttachmentReference *
         (description.inputAttachmentCount + description.colorAttachmentCount *
           (if description.pResolveAttachments.isSome then 2 else 1)))
       else none)
    preserveAttachmentCount := description.preserveAttachmentCount
    pPreserveAttachments := description.pPreserveAttachments }
  ((description1, records.length * sizeof_VkAttachmentReference), records)

/-- The kind of record occupying one region of the flattened block. -/
inductive RecordKind where
  | header : RecordKind
  | subpassHeader : RecordKind
  | attachment : RecordKind
  | dependency : RecordKind
  | trailer : RecordKind
deriving DecidableEq, Inhabited, Repr

/-- One write into the flattened block: byte offset, byte size, record
kind. -/
structure Segment where
  offset : Nat
  size : Nat
  kind : RecordKind
deriving DecidableEq, Inhabited, Repr

/-- Result of the subpass loop of
`RenderPassCreateInfo::vkRenderPassCreateInfo()` (lines 694–700): the
legacy subpass headers, their trailers, the block segments each occupies,
and the final values of the two running offsets. -/
structure SubpassWriteResult where
  headers : List VkSubpassDescription1
  trailers : List (List VkAttachmentReference)
  headerSegs : List Segment
  trailerSegs : List Segment
  endOffset : Nat
  endExtrasOffset : Nat
deriving DecidableEq, Inhabited, Repr

/-- The subpass loop of `vkRenderPassCreateInfo()`: for each subpass,
writes its trailer at the running `extrasOffset` via
`vkSubpassDescriptionExtrasInto` and its legacy header at the running
`offset`, advancing `offset` by one header size and `extrasOffset` by the
written trailer size. -/
def writeSubpasses : List VkSubpassDescription2 → Nat → Nat → SubpassWriteResult
  | [], offset, extrasOffset =>
    { headers := [], trailers := [], headerSegs := [], trailerSegs := [],
      endOffset := offset, endExtrasOffset := extrasOffset }
  | d :: rest, offset, extrasOffset =>
    let out := vkSubpassDescriptionExtrasInto d extrasOffset
    let r := writeSubpasses rest (offset + sizeof_VkSubpassDescription)
      (extrasOffset + out.1.2)
    { headers := out.1.1 :: r.headers
      trailers := out.2 :: r.trailers
      headerSegs := ⟨offset, sizeof_VkSubpassDescription, .subpassHeader⟩ :: r.headerSegs
      trailerSegs := ⟨extrasOffset, out.1.2, .trailer⟩ :: r.trailerSegs
      endOffset := r.endOffset
      endExtrasOffset := r.endExtrasOffset }

/-- The legacy `VkRenderPassCreateInfo` header produced by the flattening,
with the three array pointers as byte offsets into the block. -/
structure VkRenderPassCreateInfo1 where
  sType : Nat
  pNext : Nat
  flags : Nat
  attachmentCount : Nat
  pAttachments : Option Nat
  subpassCount : Nat
  pSubpasses : Option Nat
  dependencyCount : Nat
  pDependencies : Option Nat
deriving DecidableEq, Inhabited, Repr

/-- The flattened contiguous block produced by
`RenderPassCreateInfo::vkRenderPassCreateInfo()`: the legacy header, the
record arrays living inside the block, the per-subpass trailers, the list
of block segments (in block-layout order: header, subpass headers,
attachment descriptions, dependencies, trailers) and the total byte size
of the allocation. -/
structure FlattenedRenderPassCreateInfo where
  info1 : VkRenderPassCreateInfo1
  subpassRecords : List VkSubpassDescription1
  attachmentRecords : List VkAttachmentDescription
  dependencyRecords : List VkSubpassDependency
  trailerRecords : List (List VkAttachmentReference)
  writes : List Segment
  totalSize : Nat
deriving DecidableEq, Inhabited, Repr

/-- Models `RenderPassCreateInfo::vkRenderPassCreateInfo()` on the raw `_info`
structure (lines 649–726): computes the fixed-record sizes and the
per-subpass extras sizes, lays out one contiguous block — header first,
then the legacy subpass headers, then the legacy attachment descriptions,
then the legacy dependencies, then each subpass's attachment-reference
trailer — and converts every record into it. -/
def vkRenderPassCreateInfoFlatten (info : VkRenderPassCreateInfo2) :
    FlattenedRenderPassCreateInfo :=
  let structuresSize :=
    sizeof_VkSubpassDescription * info.subpassCount +
    sizeof_VkAttachmentDescription * info.attachmentCount +
    sizeof_VkSubpassDependency * info.dependencyCount
  let subs := readView info.pSubpasses info.subpassCount
  let extrasSize := (subs.map vkSubpassDescriptionExtrasSize).sum
  let storageSize := sizeof_VkRenderPassCreateInfo + structuresSize + extrasSize
  let w := writeSubpasses subs sizeof_VkRenderPassCreateInfo
    (sizeof_VkRenderPassCreateInfo + structuresSize)
  let attOffset := w.endOffset
  let atts := (readView info.pAttachments info.attachmentCount).map
    vkAttachmentDescription
  let attSegs := (List.range info.attachmentCount).map fun i =>
    (⟨attOffset + sizeof_VkAttachmentDescription * i,
      sizeof_VkAttachmentDescription, .attachment⟩ : Segment)
  let depOffset := attOffset + sizeof_VkAttachmentDescription * info.attachmentCount
  let deps := (readView info.pDependencies info.dependencyCount).map
    vkSubpassDependency
  let depSegs := (List.range info.dependencyCount).map fun i =>
    (⟨depOffset + sizeof_VkSubpassDependency * i,
      sizeof_VkSubpassDependency, .dependency⟩ : Segment)
  let info1 : VkRenderPassCreateInfo1 := {
    sType := VK_STRUCTURE_TYPE_RENDER_PASS_CREATE_INFO
    pNext := info.pNext
    flags := info.flags
    attachmentCount := info.attachmentCount
    pAttachments := some attOffset
    subpassCount := info.subpassCount
    pSubpasses := some sizeof_VkRenderPassCreateInfo
    dependencyCount := info.dependencyCount
    pDependencies := some depOffset }
  { info1 := info1
    subpassRecords := w.headers
    attachmentRecords := atts
    dependencyRecords := deps
    trailerRecords := w.trailers
    writes := ⟨0, sizeof_VkRenderPassCreateInfo, .header⟩ ::
      (w.headerSegs ++ attSegs ++ depSegs ++ w.trailerSegs)
    totalSize := storageSize }

/-- Models `RenderPassCreateInfo::vkRenderPassCreateInfo()` as the method on the
builder object: it reads only the `_info` structure. -/
def RenderPassCreateInfo.vkRenderPassCreateInfo (c : RenderPassCreateInfo) :
    FlattenedRenderPassCreateInfo :=
  vkRenderPassCreateInfoFlatten c.info

/-! RenderPass -/

/-- Models `HandleFlag::DestroyOnDestruction`. -/
def HandleFlag_DestroyOnDestruction : Nat := 1

/-- Models `RenderPass`: device pointer (opaque address), `VkRenderPass` handle
(`0` = null) and the `HandleFlags` bitmask. -/
structure RenderPass where
  device : Nat
  handle : Nat
  flags : Nat
deriving DecidableEq, Inhabited, Repr

/-- Models `RenderPass::wrap` (lines 728–734). -/
def RenderPass.wrap (device handle flags : Nat) : RenderPass :=
  { device := device, handle := handle, flags := flags }

/-- Outcome of the owning `RenderPass` constructor (lines 736–747):
either the `CORRADE_ASSERT` precondition on the subpass count fired (and
the external creation entry point is never reached), or the external
`createRenderPassImplementation` call is made with the supplied create
info. -/
inductive RenderPassConstructOutcome where
  | precondViolation : RenderPassConstructOutcome
  | externalCreateCall : VkRenderPassCreateInfo2 → RenderPassConstructOutcome
deriving DecidableEq, Repr

/-- The owning `RenderPass` constructor: asserts `info->subpassCount`
(zero is falsy, so zero subpasses is a precondition violation) before
invoking the external creation call. -/
def RenderPass.construct (info : RenderPassCreateInfo) :
    RenderPassConstructOutcome :=
  if info.info.subpassCount = 0 then .precondViolation
  else .externalCreateCall info.info

/-- Models `RenderPass::release()` (lines 768–772): returns the held handle and
nulls the stored handle.  The flags are not touched. -/
def RenderPass.release (r : RenderPass) : Nat × RenderPass :=
  (r.handle, { r with handle := 0 })

/-- Models `RenderPass::~RenderPass()` (lines 755–758): whether the destructor
invokes the external `DestroyRenderPass` call. -/
def RenderPass.destructorDestroys (r : RenderPass) : Bool :=
  r.handle != 0 && (r.flags &&& HandleFlag_DestroyOnDestruction) != 0

/-! Block-layout bookkeeping for the flattening proofs -/

/-- Total byte size of a list of block segments. -/
def segsSize (l : List Segment) : Nat := (l.map Segment.size).sum

/-- Holds when a list of segments tiles the block contiguously starting at
the given byte offset: each segment begins exactly where the previous one
ends. -/
def contiguousFrom : Nat → List Segment → Prop
  | _, [] => True
  | start, s :: rest => s.offset = start ∧ contiguousFrom (start + s.size) rest

/-! Concrete inputs used by the witnesses -/

/-- Concrete subpass with a single color attachment and no resolves. -/
def witnessSubpass : SubpassDescription :=
  ((SubpassDescription.make 0).setColorAttachments
    [AttachmentReference.make 0 2] []).getD default

/-- Concrete legacy subpass structure: one color attachment, a
depth/stencil attachment, no resolves, two preserve attachments. -/
def witnessVkSubpass : VkSubpassDescription :=
  { flags := 0, pipelineBindPoint := 0,
    inputAttachmentCount := 0, pInputAttachments := none,
    colorAttachmentCount := 1, pColorAttachments := some [⟨0, 2⟩],
    pResolveAttachments := none, pDepthStencilAttachment := some ⟨3, 4⟩,
    preserveAttachmentCount := 2, pPreserveAttachments := some [7, 8] }

/-- Concrete legacy subpass structure: one color attachment with a
parallel resolve attachment, no depth/stencil. -/
def witnessVkSubpassResolve : VkSubpassDescription :=
  { flags := 0, pipelineBindPoint := 0,
    inputAttachmentCount := 0, pInputAttachments := none,
    colorAttachmentCount := 1, pColorAttachments := some [⟨0, 2⟩],
    pResolveAttachments := some [⟨5, 6⟩], pDepthStencilAttachment := none,
    preserveAttachmentCount := 0, pPreserveAttachments := none }

/-! Helper lemmas -/

/-- Reading a full array view yields the underlying list. -/
theorem readView_length {α : Type} [Inhabited α] (p : Option (List α)) (n : Nat) :
    (readView p n).length = n := by
  simp [readView]

/-- Reading a view of a whole list returns the list itself. -/
theorem readView_some_full {α : Type} [Inhabited α] (l : List α) :
    readView (some l) l.length = l := by
  apply List.ext_getElem
  · simp [readView]
  · intro i h1 h2
    simp [readView, List.getD_eq_getElem?_getD, List.getElem?_eq_getElem h2]

/-- A default-constructed create-info state holds no subpasses. -/
theorem default_state_subpasses :
    (default : RenderPassCreateInfoState).subpasses = [] := rfl

/-- A default-constructed create-info state holds no subpass wire
structures. -/
theorem default_state_vkSubpasses2 :
    (default : RenderPassCreateInfoState).vkSubpasses2 = [] := rfl

/-- Splitting contiguity over a list append. -/
theorem contiguousFrom_append (a : Nat) (l₁ l₂ : List Segment) :
    contiguousFrom a (l₁ ++ l₂) ↔
      contiguousFrom a l₁ ∧ contiguousFrom (a + segsSize l₁) l₂ := by
  induction l₁ generalizing a with
  | nil => simp [contiguousFrom, segsSize]
  | cons s rest ih =>
    simp [contiguousFrom, segsSize, ih, Nat.add_assoc, and_assoc]

/-- An arithmetic progression of fixed-size records is contiguous. -/
theorem contiguous_range_map (base c : Nat) (k : RecordKind) (n : Nat) :
    contiguousFrom base ((List.range n).map fun i =>
      (⟨base + c * i, c, k⟩ : Segment)) := by
  induction n generalizing base with
  | zero => simp [contiguousFrom]
  | succ m ih =>
    rw [List.range_succ_eq_map]
    simp only [List.map_cons, List.map_map]
    refine ⟨by simp, ?_⟩
    have := ih (base + c)
    simp only [Function.comp] at *
    convert this using 2
    funext i
    simp [Nat.mul_succ]
    ring

/-- Byte size of an arithmetic progression of fixed-size records. -/
theorem segsSize_range_map (base c : Nat) (k : RecordKind) (n : Nat) :
    segsSize ((List.range n).map fun i => (⟨base + c * i, c, k⟩ : Segment)) = c * n := by
  simp [segsSize, List.map_map, Function.comp]
  induction n with
  | zero => simp
  | succ m ih => rw [List.range_succ]; simp [ih, Nat.mul_succ]

/-- Record kinds of an arithmetic progression of fixed-size records. -/
theorem kinds_range_map (base c : Nat) (k : RecordKind) (n : Nat) :
    ((List.range n).map fun i => (⟨base + c * i, c, k⟩ : Segment)).map Segment.kind
      = List.replicate n k := by
  induction n with
  | zero => simp
  | succ m ih => rw [List.range_succ]; simp [ih, List.replicate_succ']

/-- Byte size of appended segment lists. -/
theorem segsSize_append (l₁ l₂ : List Segment) :
    segsSize (l₁ ++ l₂) = segsSize l₁ + segsSize l₂ := by
  simp [segsSize]

/-- The records `vkSubpassDescriptionExtrasInto` writes occupy exactly the
bytes `vkSubpassDescriptionExtrasSize` predicts. -/
theorem extrasInto_records_size (d : VkSubpassDescription2) (base : Nat) :
    (vkSubpassDescriptionExtrasInto d base).2.length * sizeof_VkAttachmentReference
      = vkSubpassDescriptionExtrasSize d := by
  rcases h1 : d.pResolveAttachments with _ | l <;>
    rcases h2 : d.pDepthStencilAttachment with _ | r <;>
      simp [vkSubpassDescriptionExtrasInto, vkSubpassDescriptionExtrasSize,
        readView, h1, h2, sizeof_VkAttachmentReference] <;> ring

/-- The byte count `vkSubpassDescriptionExtrasInto` returns equals
`vkSubpassDescriptionExtrasSize` (the source's internal assertion). -/
theorem extrasInto_snd (d : VkSubpassDescription2) (base : Nat) :
    (vkSubpassDescriptionExtrasInto d base).1.2 = vkSubpassDescriptionExtrasSize d := by
  have h := extrasInto_records_size d base
  simpa [vkSubpassDescriptionExtrasInto] using h

/-- The subpass loop emits one legacy header per subpass. -/
theorem writeSubpasses_headers_length (subs : List VkSubpassDescription2) (o e : Nat) :
    (writeSubpasses subs o e).headers.length = subs.length := by
  induction subs generalizing o e with
  | nil => rfl
  | cons d rest ih => simp [writeSubpasses, ih]

/-- Byte size of the trailer the subpass loop writes for subpass `i`. -/
theorem writeSubpasses_trailers (subs : List VkSubpassDescription2) (o e i : Nat)
    (h : i < subs.length) :
    ((writeSubpasses subs o e).trailers.getD i []).length * sizeof_VkAttachmentReference
      = vkSubpassDescriptionExtrasSize (subs.getD i default) := by
  induction subs generalizing o e i with
  | nil => simp at h
  | cons d rest ih =>
    cases i with
    | zero => simpa [writeSubpasses] using extrasInto_records_size d e
    | succ j =>
      have hj : j < rest.length := by simpa using h
      simpa [writeSubpasses] using ih _ _ j hj

/-- The legacy subpass headers tile one contiguous region of the block. -/
theorem writeSubpasses_headerSegs (subs : List VkSubpassDescription2) (o e : Nat) :
    contiguousFrom o (writeSubpasses subs o e).headerSegs ∧
    segsSize (writeSubpasses subs o e).headerSegs
      = sizeof_VkSubpassDescription * subs.length ∧
    (writeSubpasses subs o e).headerSegs.map Segment.kind
      = List.replicate subs.length .subpassHeader ∧
    (writeSubpasses subs o e).endOffset
      = o + sizeof_VkSubpassDescription * subs.length := by
  induction subs generalizing o e with
  | nil => simp [writeSubpasses, contiguousFrom, segsSize]
  | cons d rest ih =>
    obtain ⟨h1, h2, h3, h4⟩ := ih (o + sizeof_VkSubpassDescription)
      (e + (vkSubpassDescriptionExtrasInto d e).1.2)
    refine ⟨⟨rfl, h1⟩, ?_, ?_, ?_⟩
    · simp [writeSubpasses, segsSize, Nat.mul_succ] at h2 ⊢
      omega
    · simp [writeSubpasses, h3, List.replicate_succ]
    · simp [writeSubpasses, h4, Nat.mul_succ]; omega

/-- The subpass trailers tile one contiguous region of the block, of total
size equal to the sum of the per-subpass extras sizes. -/
theorem writeSubpasses_trailerSegs (subs : List VkSubpassDescription2) (o e : Nat) :
    contiguousFrom e (writeSubpasses subs o e).trailerSegs ∧
    segsSize (writeSubpasses subs o e).trailerSegs
      = (subs.map vkSubpassDescriptionExtrasSize).sum ∧
    (writeSubpasses subs o e).trailerSegs.map Segment.kind
      = List.replicate subs.length .trailer ∧
    (writeSubpasses subs o e).endExtrasOffset
      = e + (subs.map vkSubpassDescriptionExtrasSize).sum := by
  induction subs generalizing o e with
  | nil => simp [writeSubpasses, contiguousFrom, segsSize]
  | cons d rest ih =>
    obtain ⟨h1, h2, h3, h4⟩ := ih (o + sizeof_VkSubpassDescription)
      (e + (vkSubpassDescriptionExtrasInto d e).1.2)
    have hs := extrasInto_snd d e
    refine ⟨⟨rfl, by rw [hs] at h1 ⊢; exact h1⟩, ?_, ?_, ?_⟩
    · simp [writeSubpasses, segsSize, Nat.mul_succ] at h2 ⊢
      omega
    · simp [writeSubpasses, h3, List.replicate_succ]
    · simp [writeSubpasses, h4, Nat.mul_succ]; omega

/-- Appending subpasses to a create info extends the owned subpass wire
array and keeps the info structure's pointer and count in sync. -/
theorem addSubpass_foldl (subs : List SubpassDescription) (c : RenderPassCreateInfo)
    (st : RenderPassCreateInfoState)
    (hst : c.state = some st)
    (hp : c.info.pSubpasses = some st.vkSubpasses2)
    (hc : c.info.subpassCount = st.vkSubpasses2.length) :
    (subs.foldl RenderPassCreateInfo.addSubpass c).info.pSubpasses
      = some (st.vkSubpasses2 ++ subs.map SubpassDescription.description) ∧
    (subs.foldl RenderPassCreateInfo.addSubpass c).info.subpassCount
      = st.vkSubpasses2.length + subs.length := by
  induction subs generalizing c st with
  | nil => simpa using ⟨hp, hc⟩
  | cons s rest ih =>
    have h := ih (c.addSubpass s)
      { st with subpasses := st.subpasses ++ [s],
                vkSubpasses2 := st.vkSubpasses2 ++ [s.description] }
      (by simp [RenderPassCreateInfo.addSubpass, hst])
      (by simp [RenderPassCreateInfo.addSubpass, hst])
      (by simp [RenderPassCreateInfo.addSubpass, hst])
    simpa [Nat.add_assoc, Nat.add_comm 1 rest.length] using h

/-- The header-then-arrays-then-trailers arrangement of the flattened
block is contiguous from offset zero. -/
theorem contiguous_block (hs ts : List Segment) (S A D attBase : Nat)
    (hhc : contiguousFrom sizeof_VkRenderPassCreateInfo hs)
    (hhs : segsSize hs = sizeof_VkSubpassDescription * S)
    (hab : attBase = sizeof_VkRenderPassCreateInfo + sizeof_VkSubpassDescription * S)
    (htc : contiguousFrom (sizeof_VkRenderPassCreateInfo +
      (sizeof_VkSubpassDescription * S + sizeof_VkAttachmentDescription * A +
       sizeof_VkSubpassDependency * D)) ts) :
    contiguousFrom 0
      ((⟨0, sizeof_VkRenderPassCreateInfo, RecordKind.header⟩ : Segment) ::
        (hs ++
         ((List.range A).map fun i =>
           (⟨attBase + sizeof_VkAttachmentDescription * i,
             sizeof_VkAttachmentDescription, RecordKind.attachment⟩ : Segment)) ++
         ((List.range D).map fun i =>
           (⟨attBase + sizeof_VkAttachmentDescription * A +
               sizeof_VkSubpassDependency * i,
             sizeof_VkSubpassDependency, RecordKind.dependency⟩ : Segment)) ++
         ts)) := by
  refine ⟨rfl, ?_⟩
  have hsz : (⟨0, sizeof_VkRenderPassCreateInfo, RecordKind.header⟩ : Segment).size
      = sizeof_VkRenderPassCreateInfo := rfl
  rw [hsz, Nat.zero_add, contiguousFrom_append, contiguousFrom_append,
    contiguousFrom_append]
  refine ⟨⟨⟨?_, ?_⟩, ?_⟩, ?_⟩
  · exact hhc
  · have h := contiguous_range_map attBase sizeof_VkAttachmentDescription
      RecordKind.attachment A
    have heq : sizeof_VkRenderPassCreateInfo + segsSize hs = attBase := by
      rw [hhs, hab]
    rwa [heq]
  · have h := contiguous_range_map (attBase + sizeof_VkAttachmentDescription * A)
      sizeof_VkSubpassDependency RecordKind.dependency D
    have heq : sizeof_VkRenderPassCreateInfo +
        segsSize (hs ++ (List.range A).map fun i =>
          (⟨attBase + sizeof_VkAttachmentDescription * i,
            sizeof_VkAttachmentDescription, RecordKind.attachment⟩ : Segment))
        = attBase + sizeof_VkAttachmentDescription * A := by
      rw [segsSize_append, hhs,
        segsSize_range_map attBase sizeof_VkAttachmentDescription
          RecordKind.attachment A, hab]
      omega
    rwa [heq]
  · have heq : sizeof_VkRenderPassCreateInfo +
        segsSize ((hs ++ (List.range A).map fun i =>
          (⟨attBase + sizeof_VkAttachmentDescription * i,
            sizeof_VkAttachmentDescription, RecordKind.attachment⟩ : Segment)) ++
          (List.range D).map fun i =>
            (⟨attBase + sizeof_VkAttachmentDescription * A +
                sizeof_VkSubpassDependency * i,
              sizeof_VkSubpassDependency, RecordKind.dependency⟩ : Segment))
        = sizeof_VkRenderPassCreateInfo +
          (sizeof_VkSubpassDescription * S + sizeof_VkAttachmentDescription * A +
           sizeof_VkSubpassDependency * D) := by
      rw [segsSize_append, segsSize_append, hhs,
        segsSize_range_map attBase sizeof_VkAttachmentDescription
          RecordKind.attachment A,
        segsSize_range_map (attBase + sizeof_VkAttachmentDescription * A)
          sizeof_VkSubpassDependency RecordKind.dependency D]
    rwa [heq]

/-! Claim theorems -/

/-- C5: for every legacy attachment description, attachment reference and
subpass dependency, constructing the canonical wrapper from it and reading
back through the legacy accessor reproduces every field present in the
legacy layout exactly. -/
theorem legacy_roundtrip_exact :
    (∀ d : VkAttachmentDescription,
      vkAttachmentDescription (AttachmentDescription.fromVk1 d).description = d) ∧
    (∀ r : VkAttachmentReference,
      vkAttachmentReference (AttachmentReference.fromVk1 r).reference = r) ∧
    (∀ p : VkSubpassDependency,
      vkSubpassDependency (SubpassDependency.fromVk1 p).dependency = p) := by
  refine ⟨fun d => ?_, fun r => ?_, fun p => ?_⟩ <;> rfl

/-- C4: `setColorAttachments` triggers the precondition-violation
assertion (result `none`) exactly when the resolve sequence's length is
neither zero nor the color sequence's length; under the precondition the
assertion branch is unreachable and the setter completes. -/
theorem setColorAttachments_assert_iff
    (s : SubpassDescription) (attachments resolveAttachments : List AttachmentReference) :
    s.setColorAttachments attachments resolveAttachments = none ↔
      (resolveAttachments.length ≠ 0 ∧ resolveAttachments.length ≠ attachments.length) := by
  by_cases h : resolveAttachments.length ≠ 0 ∧ resolveAttachments.length ≠ attachments.length <;>
    simp [SubpassDescription.setColorAttachments,
      SubpassDescription.setColorAttachmentsInternal, h]

/-- C8: move-constructing from a `SubpassDescription` or a
`RenderPassCreateInfo` leaves the source with every count zero, every
pointer field null and a null state, so destroying it is a no-op on the
transferred storage; the new object holds the source's previous
description and state. -/
theorem moveConstruct_clears_source (s : SubpassDescription) (c : RenderPassCreateInfo) :
    ((s.moveConstruct.2.description.pNext = 0 ∧
      s.moveConstruct.2.description.inputAttachmentCount = 0 ∧
      s.moveConstruct.2.description.pInputAttachments = none ∧
      s.moveConstruct.2.description.colorAttachmentCount = 0 ∧
      s.moveConstruct.2.description.pColorAttachments = none ∧
      s.moveConstruct.2.description.pResolveAttachments = none ∧
      s.moveConstruct.2.description.pDepthStencilAttachment = none ∧
      s.moveConstruct.2.description.preserveAttachmentCount = 0 ∧
      s.moveConstruct.2.description.pPreserveAttachments = none ∧
      s.moveConstruct.2.state = none) ∧
     (c.moveConstruct.2.info.pNext = 0 ∧
      c.moveConstruct.2.info.attachmentCount = 0 ∧
      c.moveConstruct.2.info.pAttachments = none ∧
      c.moveConstruct.2.info.subpassCount = 0 ∧
      c.moveConstruct.2.info.pSubpasses = none ∧
      c.moveConstruct.2.info.dependencyCount = 0 ∧
      c.moveConstruct.2.info.pDependencies = none ∧
      c.moveConstruct.2.info.correlatedViewMaskCount = 0 ∧
      c.moveConstruct.2.info.pCorrelatedViewMasks = none ∧
      c.moveConstruct.2.state = none)) ∧
    (s.moveConstruct.1 = s ∧ c.moveConstruct.1 = c) := by
  exact ⟨⟨⟨rfl, rfl, rfl, rfl, rfl, rfl, rfl, rfl, rfl, rfl⟩,
    ⟨rfl, rfl, rfl, rfl, rfl, rfl, rfl, rfl, rfl, rfl⟩⟩, rfl, rfl⟩

/-- C10: move assignment of a `SubpassDescription` or a
`RenderPassCreateInfo` exchanges the complete states of the two objects —
the target ends up with the source's previous description and owned
storage, the source with the target's (not zeroed). -/
theorem moveAssign_swaps (a b : SubpassDescription) (c d : RenderPassCreateInfo) :
    a.moveAssign b = (b, a) ∧ c.moveAssign d = (d, c) := ⟨rfl, rfl⟩

/-- C7 counterexample: at a concrete render pass with handle 5 and the
destroy-on-destruction flag set, `release()` does NOT clear the flag,
refuting the claim that afterwards the flag is cleared. -/
theorem release_flag_not_cleared :
    ((RenderPass.release { device := 0, handle := 5, flags := 1 }).2.flags &&&
      HandleFlag_DestroyOnDestruction) ≠ 0 := by decide

/-- C7 (amended): `release()` returns the held handle and nulls the stored
handle while leaving the flags unchanged; destruction after a release
performs no external destroy call (because the handle is null), and in
general destruction invokes the external destroy call iff the handle is
non-null and the destroy-on-destruction flag is set. -/
theorem release_detaches_handle (r : RenderPass) :
    r.release.1 = r.handle ∧ r.release.2.handle = 0 ∧ r.release.2.flags = r.flags ∧
    r.release.2.destructorDestroys = false ∧
    (r.destructorDestroys = true ↔
      (r.handle ≠ 0 ∧ r.flags &&& HandleFlag_DestroyOnDestruction ≠ 0)) := by
  refine ⟨rfl, rfl, rfl, rfl, ?_⟩
  simp [RenderPass.destructorDestroys, Bool.and_eq_true, bne_iff_ne]

/-- C6: constructing a `RenderPass` fails the precondition check exactly
when the create info has zero subpasses; with at least one subpass the
external creation call is reached with the supplied create info. -/
theorem construct_requires_subpass (c : RenderPassCreateInfo) :
    (RenderPass.construct c = .precondViolation ↔ c.info.subpassCount = 0) ∧
    (c.info.subpassCount ≠ 0 →
      RenderPass.construct c = .externalCreateCall c.info) := by
  constructor
  · by_cases h : c.info.subpassCount = 0 <;> simp [RenderPass.construct, h]
  · intro h; simp [RenderPass.construct, h]

/-- C6 witness: a create info with one appended subpass reaches the
external creation call. -/
theorem construct_requires_subpass_witness :
    RenderPass.construct
        ((RenderPassCreateInfo.make 0).addSubpass (SubpassDescription.make 0)) =
      .externalCreateCall
        ((RenderPassCreateInfo.make 0).addSubpass (SubpassDescription.make 0)).info :=
  (construct_requires_subpass _).2 (by decide)

/-- C3: the legacy flattening reads only the `_info` structure, so two
flattenings of create infos whose `_info` agree (in particular two calls
on the same unmutated object) produce identical output blocks. -/
theorem flatten_depends_only_on_info (c₁ c₂ : RenderPassCreateInfo)
    (h : c₁.info = c₂.info) :
    c₁.vkRenderPassCreateInfo = c₂.vkRenderPassCreateInfo := by
  simp [RenderPassCreateInfo.vkRenderPassCreateInfo, h]

/-- C3 witness: two concrete create infos with equal `_info` but different
states flatten identically. -/
theorem flatten_depends_only_on_info_witness :
    (RenderPassCreateInfo.mk (RenderPassCreateInfo.make 0).info
      none).vkRenderPassCreateInfo =
    (RenderPassCreateInfo.mk (RenderPassCreateInfo.make 0).info
      (some default)).vkRenderPassCreateInfo :=
  flatten_depends_only_on_info _ _ rfl

/-- C9: constructing a `SubpassDescription` from a legacy wire structure
copies the preserve-attachment count and pointer verbatim (the state keeps
no owned copy), converts the input, color, resolve and depth/stencil
references into owned canonical storage, and a null resolve pointer
yields an absent resolve sequence. -/
theorem fromVk1_preserves_and_converts (d : VkSubpassDescription) :
    (SubpassDescription.fromVk1 d).isSome = true ∧
    ((SubpassDescription.fromVk1 d).getD default).description.preserveAttachmentCount
      = d.preserveAttachmentCount ∧
    ((SubpassDescription.fromVk1 d).getD default).description.pPreserveAttachments
      = d.pPreserveAttachments ∧
    (((SubpassDescription.fromVk1 d).getD default).state.getD default).preserveAttachments
      = [] ∧
    ((SubpassDescription.fromVk1 d).getD default).description.inputAttachmentCount
      = d.inputAttachmentCount ∧
    ((SubpassDescription.fromVk1 d).getD default).description.pInputAttachments
      = some ((readView d.pInputAttachments d.inputAttachmentCount).map
          fun r => (AttachmentReference.fromVk1 r).reference) ∧
    ((SubpassDescription.fromVk1 d).getD default).description.colorAttachmentCount
      = d.colorAttachmentCount ∧
    ((SubpassDescription.fromVk1 d).getD default).description.pColorAttachments
      = some ((readView d.pColorAttachments d.colorAttachmentCount).map
          fun r => (AttachmentReference.fromVk1 r).reference) ∧
    (d.pResolveAttachments = none →
      ((SubpassDescription.fromVk1 d).getD default).description.pResolveAttachments
        = none) ∧
    (∀ l, d.pResolveAttachments = some l → d.colorAttachmentCount ≠ 0 →
      ((SubpassDescription.fromVk1 d).getD default).description.pResolveAttachments
        = some ((List.range d.colorAttachmentCount).map
            fun i => (AttachmentReference.fromVk1 (l.getD i default)).reference)) ∧
    (d.pDepthStencilAttachment = none →
      ((SubpassDescription.fromVk1 d).getD default).description.pDepthStencilAttachment
        = none) ∧
    (∀ r, d.pDepthStencilAttachment = some r →
      ((SubpassDescription.fromVk1 d).getD default).description.pDepthStencilAttachment
        = some (AttachmentReference.fromVk1 r).reference) := by
  rcases hres : d.pResolveAttachments with _ | l <;>
    rcases hdep : d.pDepthStencilAttachment with _ | r <;>
      simp [SubpassDescription.fromVk1, hres, hdep,
        SubpassDescription.setInputAttachmentsInternal,
        SubpassDescription.setColorAttachmentsInternal,
        SubpassDescription.setDepthStencilAttachment,
        readView, List.map_map, Function.comp] <;> rfl

/-- C9 witness: the constructor applied to two concrete legacy subpass
structures (one with a null resolve pointer and a depth/stencil
attachment, one with a resolve attachment and no depth/stencil). -/
theorem fromVk1_preserves_and_converts_witness :
    (((SubpassDescription.fromVk1 witnessVkSubpass).getD
        default).description.pResolveAttachments = none ∧
     ((SubpassDescription.fromVk1 witnessVkSubpass).getD
        default).description.pDepthStencilAttachment
       = some (AttachmentReference.fromVk1 ⟨3, 4⟩).reference) ∧
    (((SubpassDescription.fromVk1 witnessVkSubpassResolve).getD
        default).description.pResolveAttachments
       = some [(AttachmentReference.fromVk1 ⟨5, 6⟩).reference] ∧
     ((SubpassDescription.fromVk1 witnessVkSubpassResolve).getD
        default).description.pDepthStencilAttachment = none) := by
  have h1 := fromVk1_preserves_and_converts witnessVkSubpass
  have h2 := fromVk1_preserves_and_converts witnessVkSubpassResolve
  refine ⟨⟨h1.2.2.2.2.2.2.2.2.1 rfl, h1.2.2.2.2.2.2.2.2.2.2.2 ⟨3, 4⟩ rfl⟩,
    ?_, h2.2.2.2.2.2.2.2.2.2.2.1 rfl⟩
  have h10 := h2.2.2.2.2.2.2.2.2.2.1 [⟨5, 6⟩] rfl (by decide)
  rw [h10]
  rfl

/-- C1: flattening a create info with N appended subpasses yields exactly
N legacy subpass headers, and each subpass's trailing attachment-reference
bytes equal `vkSubpassDescriptionExtrasSize`, which is (input count +
color count + (color count if resolves present) + (1 if depth/stencil
present)) times the legacy reference-record size. -/
theorem flatten_subpass_count_and_trailer_sizes (flags : Nat)
    (subs : List SubpassDescription) :
    ((subs.foldl RenderPassCreateInfo.addSubpass
        (RenderPassCreateInfo.make flags)).vkRenderPassCreateInfo).subpassRecords.length
      = subs.length ∧
    ∀ i, i < subs.length →
      (((subs.foldl RenderPassCreateInfo.addSubpass
          (RenderPassCreateInfo.make flags)).vkRenderPassCreateInfo).trailerRecords.getD
            i []).length * sizeof_VkAttachmentReference
        = vkSubpassDescriptionExtrasSize (subs.getD i default).description ∧
      vkSubpassDescriptionExtrasSize (subs.getD i default).description
        = sizeof_VkAttachmentReference *
            ((subs.getD i default).description.inputAttachmentCount +
             (subs.getD i default).description.colorAttachmentCount +
             (if (subs.getD i default).description.pResolveAttachments.isSome
              then (subs.getD i default).description.colorAttachmentCount else 0) +
             (if (subs.getD i default).description.pDepthStencilAttachment.isSome
              then 1 else 0)) := by
  have key : ∀ (c : RenderPassCreateInfo),
      c.info.pSubpasses = some (subs.map SubpassDescription.description) →
      c.info.subpassCount = subs.length →
      (c.vkRenderPassCreateInfo.subpassRecords.length = subs.length ∧
       ∀ i, i < subs.length →
        (c.vkRenderPassCreateInfo.trailerRecords.getD i []).length *
            sizeof_VkAttachmentReference
          = vkSubpassDescriptionExtrasSize (subs.getD i default).description) := by
    intro c hp hc
    have hread : readView c.info.pSubpasses c.info.subpassCount
        = subs.map SubpassDescription.description := by
      rw [hp, hc]
      have := readView_some_full (subs.map SubpassDescription.description)
      simpa using this
    constructor
    · simp only [RenderPassCreateInfo.vkRenderPassCreateInfo,
        vkRenderPassCreateInfoFlatten, hread]
      simp [writeSubpasses_headers_length]
    · intro i hi
      simp only [RenderPassCreateInfo.vkRenderPassCreateInfo,
        vkRenderPassCreateInfoFlatten, hread]
      have ht := writeSubpasses_trailers (subs.map SubpassDescription.description)
        sizeof_VkRenderPassCreateInfo
        (sizeof_VkRenderPassCreateInfo +
          (sizeof_VkSubpassDescription * c.info.subpassCount +
           sizeof_VkAttachmentDescription * c.info.attachmentCount +
           sizeof_VkSubpassDependency * c.info.dependencyCount)) i (by simpa using hi)
      have hgd : (subs.map SubpassDescription.description).getD i default
          = (subs.getD i default).description := by
        have h2 : i < (subs.map SubpassDescription.description).length := by simpa using hi
        rw [List.getD_eq_getElem?_getD, List.getD_eq_getElem?_getD,
          List.getElem?_eq_getElem h2, List.getElem?_eq_getElem hi]
        simp
      rw [hgd] at ht
      exact ht
  have hformula : ∀ (d : VkSubpassDescription2),
      vkSubpassDescriptionExtrasSize d
        = sizeof_VkAttachmentReference * (d.inputAttachmentCount +
            d.colorAttachmentCount +
            (if d.pResolveAttachments.isSome then d.colorAttachmentCount else 0) +
            (if d.pDepthStencilAttachment.isSome then 1 else 0)) := by
    intro d
    rcases h1 : d.pResolveAttachments with _ | l <;>
      rcases h2 : d.pDepthStencilAttachment with _ | r <;>
        simp only [vkSubpassDescriptionExtrasSize, h1, h2, Option.isSome_some,
          Option.isSome_none, Bool.false_eq_true, if_true, if_false] <;> ring
  rcases subs with _ | ⟨s, rest⟩
  · refine ⟨?_, by intro i hi; simp at hi⟩
    simp [RenderPassCreateInfo.vkRenderPassCreateInfo, vkRenderPassCreateInfoFlatten,
      RenderPassCreateInfo.make, readView, writeSubpasses]
  · have hinv := addSubpass_foldl rest
      ((RenderPassCreateInfo.make flags).addSubpass s)
      { (default : RenderPassCreateInfoState) with
          subpasses := [s], vkSubpasses2 := [s.description] }
      (by simp [RenderPassCreateInfo.addSubpass, RenderPassCreateInfo.make,
            default_state_subpasses, default_state_vkSubpasses2])
      (by simp [RenderPassCreateInfo.addSubpass, RenderPassCreateInfo.make,
            default_state_vkSubpasses2])
      (by simp [RenderPassCreateInfo.addSubpass, RenderPassCreateInfo.make,
            default_state_vkSubpasses2])
    have hk := key ((s :: rest).foldl RenderPassCreateInfo.addSubpass
        (RenderPassCreateInfo.make flags))
      (by simpa using hinv.1)
      (by simpa [Nat.add_comm] using hinv.2)
    exact ⟨hk.1, fun i hi => ⟨hk.2 i hi, hformula _⟩⟩

/-- C1 witness: a create info with one appended subpass (one color
attachment) has one subpass header and an 8-byte trailer. -/
theorem flatten_subpass_count_and_trailer_sizes_witness :
    (([witnessSubpass].foldl RenderPassCreateInfo.addSubpass
        (RenderPassCreateInfo.make 0)).vkRenderPassCreateInfo).subpassRecords.length
      = [witnessSubpass].length ∧
    ((([witnessSubpass].foldl RenderPassCreateInfo.addSubpass
        (RenderPassCreateInfo.make 0)).vkRenderPassCreateInfo).trailerRecords.getD
          0 []).length * sizeof_VkAttachmentReference
      = vkSubpassDescriptionExtrasSize ([witnessSubpass].getD 0 default).description := by
  refine ⟨(flatten_subpass_count_and_trailer_sizes 0 [witnessSubpass]).1, ?_⟩
  exact ((flatten_subpass_count_and_trailer_sizes 0 [witnessSubpass]).2 0
    (by decide)).1

/-- C2: the flattened block is one contiguous allocation laid out as the
fixed create-info header, then all legacy subpass headers, then all legacy
attachment descriptions, then all legacy dependency records, then each
subpass's variable-length attachment-reference trailer, with no record
type interleaved into another's trailer; its total size is the header size
plus the per-record sizes times the counts plus the per-subpass trailer
sizes. -/
theorem flatten_block_layout (info : VkRenderPassCreateInfo2) :
    contiguousFrom 0 (vkRenderPassCreateInfoFlatten info).writes ∧
    segsSize (vkRenderPassCreateInfoFlatten info).writes
      = (vkRenderPassCreateInfoFlatten info).totalSize ∧
    (vkRenderPassCreateInfoFlatten info).writes.map Segment.kind
      = RecordKind.header ::
        (List.replicate info.subpassCount RecordKind.subpassHeader ++
         List.replicate info.attachmentCount RecordKind.attachment ++
         List.replicate info.dependencyCount RecordKind.dependency ++
         List.replicate info.subpassCount RecordKind.trailer) ∧
    (vkRenderPassCreateInfoFlatten info).totalSize
      = sizeof_VkRenderPassCreateInfo +
        sizeof_VkSubpassDescription * info.subpassCount +
        sizeof_VkAttachmentDescription * info.attachmentCount +
        sizeof_VkSubpassDependency * info.dependencyCount +
        ((readView info.pSubpasses info.subpassCount).map
          vkSubpassDescriptionExtrasSize).sum := by
  have hlen : (readView info.pSubpasses info.subpassCount).length
      = info.subpassCount := readView_length _ _
  obtain ⟨hWc, hWs, hWk, hWe⟩ := writeSubpasses_headerSegs
    (readView info.pSubpasses info.subpassCount) sizeof_VkRenderPassCreateInfo
    (sizeof_VkRenderPassCreateInfo +
      (sizeof_VkSubpassDescription * info.subpassCount +
       sizeof_VkAttachmentDescription * info.attachmentCount +
       sizeof_VkSubpassDependency * info.dependencyCount))
  obtain ⟨hTc, hTs, hTk, hTe⟩ := writeSubpasses_trailerSegs
    (readView info.pSubpasses info.subpassCount) sizeof_VkRenderPassCreateInfo
    (sizeof_VkRenderPassCreateInfo +
      (sizeof_VkSubpassDescription * info.subpassCount +
       sizeof_VkAttachmentDescription * info.attachmentCount +
       sizeof_VkSubpassDependency * info.dependencyCount))
  rw [hlen] at hWs hWk hWe hTk
  refine ⟨?_, ?_, ?_, ?_⟩
  · simp only [vkRenderPassCreateInfoFlatten]
    exact contiguous_block _ _ info.subpassCount info.attachmentCount
      info.dependencyCount _ hWc hWs hWe hTc
  · simp only [vkRenderPassCreateInfoFlatten, segsSize, List.map_cons, List.map_append,
      List.sum_cons, List.sum_append]
    have h1 : ((writeSubpasses (readView info.pSubpasses info.subpassCount)
        sizeof_VkRenderPassCreateInfo
        (sizeof_VkRenderPassCreateInfo +
          (sizeof_VkSubpassDescription * info.subpassCount +
           sizeof_VkAttachmentDescription * info.attachmentCount +
           sizeof_VkSubpassDependency * info.dependencyCount))).headerSegs.map
          Segment.size).sum = sizeof_VkSubpassDescription * info.subpassCount := by
      simpa [segsSize] using hWs
    have h2 : ((writeSubpasses (readView info.pSubpasses info.subpassCount)
        sizeof_VkRenderPassCreateInfo
        (sizeof_VkRenderPassCreateInfo +
          (sizeof_VkSubpassDescription * info.subpassCount +
           sizeof_VkAttachmentDescription * info.attachmentCount +
           sizeof_VkSubpassDependency * info.dependencyCount))).trailerSegs.map
          Segment.size).sum
        = ((readView info.pSubpasses info.subpassCount).map
            vkSubpassDescriptionExtrasSize).sum := by
      simpa [segsSize] using hTs
    have h3 : (((List.range info.attachmentCount).map fun i =>
        (⟨(writeSubpasses (readView info.pSubpasses info.subpassCount)
            sizeof_VkRenderPassCreateInfo
            (sizeof_VkRenderPassCreateInfo +
              (sizeof_VkSubpassDescription * info.subpassCount +
               sizeof_VkAttachmentDescription * info.attachmentCount +
               sizeof_VkSubpassDependency * info.dependencyCount))).endOffset +
           sizeof_VkAttachmentDescription * i,
          sizeof_VkAttachmentDescription, RecordKind.attachment⟩ : Segment)).map
          Segment.size).sum
        = sizeof_VkAttachmentDescription * info.attachmentCount := by
      simpa [segsSize] using segsSize_range_map _ sizeof_VkAttachmentDescription
        RecordKind.attachment info.attachmentCount
    have h4 : (((List.range info.dependencyCount).map fun i =>
        (⟨(writeSubpasses (readView info.pSubpasses info.subpassCount)
            sizeof_VkRenderPassCreateInfo
            (sizeof_VkRenderPassCreateInfo +
              (sizeof_VkSubpassDescription * info.subpassCount +
               sizeof_VkAttachmentDescription * info.attachmentCount +
               sizeof_VkSubpassDependency * info.dependencyCount))).endOffset +
           sizeof_VkAttachmentDescription * info.attachmentCount +
           sizeof_VkSubpassDependency * i,
          sizeof_VkSubpassDependency, RecordKind.dependency⟩ : Segment)).map
          Segment.size).sum
        = sizeof_VkSubpassDependency * info.dependencyCount := by
      simpa [segsSize] using segsSize_range_map _ sizeof_VkSubpassDependency
        RecordKind.dependency info.dependencyCount
    rw [h1, h2, h3, h4]
    omega
  · simp only [vkRenderPassCreateInfoFlatten, List.map_cons, List.map_append]
    rw [hWk, hTk, kinds_range_map, kinds_range_map]
  · simp only [vkRenderPassCreateInfoFlatten]
    omega
